import Mathlib

/-!
# Verification of the Financial & SaaS News Sentiment Analyser

Shallow embedding of `src/sentiment_analyser.py` (class `NewsSentimentAnalyser`).
Python floats are modelled as rationals (`ℚ`), so every arithmetic identity is
exact; an exact identity implies any floating-point tolerance stated in the
specification.  The two external sentiment models (VADER and TextBlob) are
IO-free collaborators, so the embedding abstracts them as function parameters:
`vader : String → VaderScores` and `textblob : String → Option (ℚ × ℚ)`, where
`none` models the TextBlob call raising an exception (the bare `except:` at
line 179 of the source).  Feed sources are likewise abstracted: each source is
a name together with `Option (List Entry)`, where `none` models
`feedparser.parse`/iteration raising inside the `try` of `fetch_news`.
-/

namespace SentimentAnalyser

/-- Python `str.strip` on a list of characters: drop leading whitespace, then
drop trailing whitespace. -/
def stripList (p : Char → Bool) (l : List Char) : List Char :=
  List.rdropWhile p (l.dropWhile p)

/-- Python `text.strip()` (line 167 of the source). -/
def pyStrip (s : String) : String :=
  ⟨stripList Char.isWhitespace s.data⟩

/-- The five sentiment labels returned by `_get_sentiment_label`. -/
inductive Label where
  | veryPositive
  | positive
  | neutral
  | negative
  | veryNegative
deriving DecidableEq, Repr

/-- The record returned by `vader.polarity_scores(text)` (line 172):
fields `compound`, `pos`, `neg`, `neu`. -/
structure VaderScores where
  compound : ℚ
  pos : ℚ
  neg : ℚ
  neu : ℚ
deriving DecidableEq, Repr

/-- The combined score dictionary built at lines 184-192 of the source. -/
structure SentimentScore where
  compound : ℚ
  positive : ℚ
  negative : ℚ
  neutral : ℚ
  polarity : ℚ
  subjectivity : ℚ
  overall : ℚ
deriving DecidableEq, Repr

/-- `_neutral_sentiment` (lines 196-206): the fixed neutral score. -/
def _neutral_sentiment : SentimentScore :=
  { compound := 0
    positive := 0
    negative := 0
    neutral := 1
    polarity := 0
    subjectivity := 0
    overall := 0 }

/-- `analyse_sentiment` (lines 164-194).  The text is stripped; empty text
yields the neutral score; otherwise VADER is invoked on the stripped text and
TextBlob is invoked inside a `try`, with `polarity = 0, subjectivity = 0`
substituted when it fails; `overall` is the weighted fusion
`compound * 0.6 + polarity * 0.4`. -/
def analyse_sentiment (vader : String → VaderScores)
    (textblob : String → Option (ℚ × ℚ)) (text : String) : SentimentScore :=
  let text := pyStrip text
  if text = "" then
    _neutral_sentiment
  else
    let vader_scores := vader text
    let tb := match textblob text with
      | some ps => ps
      | none => (0, 0)
    { compound := vader_scores.compound
      positive := vader_scores.pos
      negative := vader_scores.neg
      neutral := vader_scores.neu
      polarity := tb.1
      subjectivity := tb.2
      overall := vader_scores.compound * 0.6 + tb.1 * 0.4 }

/-- `_get_sentiment_label` (lines 258-269), translated branch for branch. -/
def _get_sentiment_label (score : ℚ) : Label :=
  if score ≥ 0.3 then .veryPositive
  else if score ≥ 0.1 then .positive
  else if score ≤ -0.3 then .veryNegative
  else if score ≤ -0.1 then .negative
  else .neutral

/-- A raw feed entry as used by `fetch_news`: `entry.title` and
`entry.get('summary', '')` (lines 117-118).  The `published`/`link` fields are
never consulted by matching, scoring or aggregation and are omitted. -/
structure Entry where
  title : String
  summary : String
deriving DecidableEq, Repr

/-- A matched article as appended at lines 151-158; the `published`/`link`/
`entity` fields are never consulted downstream and are omitted. -/
structure Article where
  title : String
  summary : String
  source : String
deriving DecidableEq, Repr

/-- Python `str.lower()`: lower-case a string character by character. -/
def lowerStr (s : String) : String :=
  ⟨s.data.map Char.toLower⟩

/-- Does `n` occur as a leading block of `h`? -/
def isLeadingBlock : List Char → List Char → Bool
  | [], _ => true
  | _ :: _, [] => false
  | a :: as, b :: bs => a == b && isLeadingBlock as bs

/-- Does `n` occur as a contiguous block anywhere in `h`? -/
def isSubstrList (n : List Char) : List Char → Bool
  | [] => n.isEmpty
  | c :: cs => isLeadingBlock n (c :: cs) || isSubstrList n cs

/-- Python substring containment `needle in hay` on the two strings. -/
def containsSub (hay needle : String) : Bool :=
  isSubstrList needle.data hay.data

/-- The `company_names` dictionary of curated alias variants (lines 124-145). -/
def company_names : List (String × List String) :=
  [("AAPL", ["apple", "iphone", "tim cook"]),
   ("MSFT", ["microsoft", "windows", "satya nadella"]),
   ("GOOGL", ["google", "alphabet", "android"]),
   ("NVDA", ["nvidia", "jensen huang", "gpu"]),
   ("JPM", ["jpmorgan", "jp morgan", "jamie dimon"]),
   ("BAC", ["bank of america", "bofa"]),
   ("GS", ["goldman sachs", "goldman"]),
   ("HSBA.L", ["hsbc", "hongkong shanghai"]),
   ("BP.L", ["british petroleum", "bp"]),
   ("AZN.L", ["astrazeneca", "astra zeneca"]),
   ("CRM", ["salesforce", "marc benioff"]),
   ("SNOW", ["snowflake"]),
   ("TEAM", ["atlassian", "jira", "confluence"]),
   ("ZM", ["zoom", "zoom video"]),
   ("DDOG", ["datadog"]),
   ("SHOP", ["shopify"]),
   ("SQ", ["square", "block inc", "jack dorsey"]),
   ("PLTR", ["palantir"]),
   ("COIN", ["coinbase"]),
   ("SPOT", ["spotify"])]

/-- `entity_variants` (lines 121-147): the lower-cased entity id, extended with
the curated company-name variants when the entity is a stock present in the
dictionary. -/
def entity_variants (entity : String) (entity_type : String) : List String :=
  let base := [lowerStr entity]
  if entity_type = "stock" then
    match company_names.lookup entity with
    | some names => base ++ names
    | none => base
  else base

/-- The per-entry match check at lines 117-118 and 150: lower-case the title
and the summary separately and test whether any variant is a substring of the
title or a substring of the summary. -/
def matches_entity (variants : List String) (e : Entry) : Bool :=
  let title := lowerStr e.title
  let summary := lowerStr e.summary
  variants.any (fun variant => containsSub title variant || containsSub summary variant)

/-- Modelled from the spec (section 4.1), for refinement comparison only: the
matcher described there builds the single lower-cased concatenated surface
`title + " " + summary` and tests whether any lower-cased alias is a substring
of that one surface. -/
def match_spec (aliases : List String) (e : Entry) : Bool :=
  let surface := lowerStr (e.title ++ " " ++ e.summary)
  aliases.any (fun a => containsSub surface (lowerStr a))

/-- The body of one iteration of the source loop in `fetch_news`
(lines 110-160): a source whose fetch raises (`none`) contributes no articles
(the `except` at line 159 swallows the error); otherwise the latest 20 entries
are kept, filtered by the entity-variant match, and turned into articles. -/
def source_items (variants : List String) (src : String × Option (List Entry)) :
    List Article :=
  match src.2 with
  | none => []
  | some entries =>
      ((entries.take 20).filter (fun e => matches_entity variants e)).map
        (fun e => { title := e.title, summary := e.summary, source := src.1 })

/-- `fetch_news` (lines 103-162): select the financial or SaaS feed set by
entity type and concatenate each source's matched articles in source order. -/
def fetch_news (financial_feeds saas_feeds : List (String × Option (List Entry)))
    (entity : String) (entity_type : String) : List Article :=
  let feeds := if entity_type = "stock" then financial_feeds else saas_feeds
  (feeds.map (source_items (entity_variants entity entity_type))).flatten

/-- A scored article: the sentiment dictionary with its `article` attached
(lines 234-239).  The wall-clock `timestamp` field is not modelled. -/
structure ScoredItem where
  score : SentimentScore
  article : Article
deriving DecidableEq, Repr

/-- The result dictionary of `analyse_entity` (lines 249-256).  The
`price_data` field (reporting-only) is not modelled. -/
structure EntityResult where
  entity : String
  entity_type : String
  sentiments : List ScoredItem
  avg_sentiment : ℚ
  sentiment_label : Label
deriving DecidableEq, Repr

/-- The arithmetic mean of a list of rationals, `sum / length`; in `ℚ`
division by zero is zero, so the mean of the empty list is `0`. -/
def mean (l : List ℚ) : ℚ :=
  l.sum / (l.length : ℚ)

/-- The scoring and aggregation body of `analyse_entity` (lines 231-256),
factored over the fetched news list: each article's `title + ' ' + summary` is
scored, and `avg_sentiment` is `np.mean` of the overall scores when there are
any and `0` otherwise (line 247). -/
def analyse_entity_core (vader : String → VaderScores)
    (textblob : String → Option (ℚ × ℚ)) (entity : String)
    (entity_type : String) (news : List Article) : EntityResult :=
  let sentiments := news.map (fun article =>
    { score := analyse_sentiment vader textblob (article.title ++ " " ++ article.summary)
      article := article })
  let avg_sentiment : ℚ :=
    if sentiments.isEmpty then 0
    else (sentiments.map (fun s => s.score.overall)).sum / (sentiments.length : ℚ)
  { entity := entity
    entity_type := entity_type
    sentiments := sentiments
    avg_sentiment := avg_sentiment
    sentiment_label := _get_sentiment_label avg_sentiment }

/-- `analyse_entity` (lines 223-256): fetch the news for the entity, then
score and aggregate. -/
def analyse_entity (vader : String → VaderScores)
    (textblob : String → Option (ℚ × ℚ))
    (financial_feeds saas_feeds : List (String × Option (List Entry)))
    (entity : String) (entity_type : String) : EntityResult :=
  analyse_entity_core vader textblob entity entity_type
    (fetch_news financial_feeds saas_feeds entity entity_type)

/-- The orchestration loops of `create_dashboard` (lines 278-290): one result
per tracked stock, in order, then one result per tracked SaaS company, in
order. -/
def analyse_all (vader : String → VaderScores)
    (textblob : String → Option (ℚ × ℚ))
    (financial_feeds saas_feeds : List (String × Option (List Entry)))
    (stocks saas : List String) : List EntityResult × List EntityResult :=
  (stocks.map (fun s => analyse_entity vader textblob financial_feeds saas_feeds s "stock"),
   saas.map (fun s => analyse_entity vader textblob financial_feeds saas_feeds s "saas"))

/-- `create_dashboard` (lines 271-353) as observed by its caller: run the
orchestration loops, then render the dashboard.  Rendering reaches
`_create_insights_table` (line 634), whose
`max(stock_results + saas_results, ...)` raises `ValueError` exactly when both
result lists are empty, i.e. when the tracked registry is empty; that
exception escapes before any result is returned or saved.  Every other
rendering step is guarded against empty data. -/
def create_dashboard (vader : String → VaderScores)
    (textblob : String → Option (ℚ × ℚ))
    (financial_feeds saas_feeds : List (String × Option (List Entry)))
    (stocks saas : List String) :
    Except String (List EntityResult × List EntityResult) :=
  let results := analyse_all vader textblob financial_feeds saas_feeds stocks saas
  if (results.1 ++ results.2).isEmpty then
    .error "max() arg is an empty sequence"
  else
    .ok results

/-! ## Helper lemmas -/

theorem isLeadingBlock_iff (n h : List Char) :
    isLeadingBlock n h = true ↔ ∃ t, n ++ t = h := by
  induction n generalizing h with
  | nil => simp [isLeadingBlock]
  | cons a as ih =>
    cases h with
    | nil => simp [isLeadingBlock]
    | cons b bs =>
      simp only [isLeadingBlock, Bool.and_eq_true, beq_iff_eq, ih,
        List.cons_append, List.cons.injEq]
      constructor
      · rintro ⟨rfl, t, rfl⟩
        exact ⟨t, rfl, rfl⟩
      · rintro ⟨t, rfl, rfl⟩
        exact ⟨rfl, t, rfl⟩

theorem isSubstrList_iff (n h : List Char) :
    isSubstrList n h = true ↔ ∃ s t, s ++ n ++ t = h := by
  induction h with
  | nil =>
    simp only [isSubstrList, List.isEmpty_iff]
    constructor
    · rintro rfl
      exact ⟨[], [], rfl⟩
    · rintro ⟨s, t, hst⟩
      rcases List.append_eq_nil.mp hst with ⟨hsn, ht⟩
      exact (List.append_eq_nil.mp hsn).2
  | cons c cs ih =>
    simp only [isSubstrList, Bool.or_eq_true, isLeadingBlock_iff, ih]
    constructor
    · rintro (⟨t, ht⟩ | ⟨s, t, rfl⟩)
      · exact ⟨[], t, by simpa using ht⟩
      · exact ⟨c :: s, t, rfl⟩
    · rintro ⟨s, t, hst⟩
      cases s with
      | nil => exact Or.inl ⟨t, by simpa using hst⟩
      | cons x xs =>
        rw [List.cons_append, List.cons_append, List.cons.injEq] at hst
        exact Or.inr ⟨xs, t, hst.2⟩

theorem containsSub_iff (hay needle : String) :
    containsSub hay needle = true ↔ ∃ s t, s ++ needle.data ++ t = hay.data :=
  isSubstrList_iff needle.data hay.data

theorem stripList_dropWhile (p : Char → Bool) (l : List Char) :
    (stripList p l).dropWhile p = stripList p l := by
  unfold stripList
  cases ht : List.rdropWhile p (l.dropWhile p) with
  | nil => simp
  | cons a s =>
    have hpre := List.rdropWhile_prefix p (l.dropWhile p)
    rw [ht] at hpre
    obtain ⟨t, htt⟩ := hpre
    have hidem := List.dropWhile_idempotent p l
    rw [← htt, List.cons_append] at hidem
    have hpa : p a = false := by
      by_contra hc
      rw [Bool.not_eq_false] at hc
      rw [List.dropWhile_cons, if_pos hc] at hidem
      have hle : (List.dropWhile p (s ++ t)).length ≤ (s ++ t).length :=
        (List.dropWhile_suffix p).sublist.length_le
      have hlen := congrArg List.length hidem
      simp only [List.length_cons] at hlen
      omega
    rw [List.dropWhile_cons, hpa]
    simp

theorem stripList_idem (p : Char → Bool) (l : List Char) :
    stripList p (stripList p l) = stripList p l := by
  conv_lhs => rw [stripList, stripList_dropWhile]
  rw [show List.rdropWhile p (stripList p l)
        = List.rdropWhile p (List.rdropWhile p (l.dropWhile p)) from rfl,
    List.rdropWhile_idempotent]
  rfl

theorem pyStrip_idem (s : String) : pyStrip (pyStrip s) = pyStrip s := by
  simp [pyStrip, stripList_idem]

/-- A fixed trivial VADER model, used to instantiate universally quantified
theorems at concrete inputs. -/
def vader0 : String → VaderScores := fun _ => ⟨0, 0, 0, 1⟩

/-- A fixed always-failing TextBlob model. -/
def textblob0 : String → Option (ℚ × ℚ) := fun _ => none

/-! ## Claim theorems -/

/-- Claim C1: for every input text whose stripped form is non-empty, the
returned score satisfies `overall = compound * 0.6 + polarity * 0.4`, where
`compound` is VADER's compound output on the stripped text and `polarity` is
TextBlob's polarity output there (`0` when TextBlob failed).  Over `ℚ` the
equality is exact, hence within the stated `1e-9` tolerance. -/
theorem fusion_rule (vader : String → VaderScores)
    (textblob : String → Option (ℚ × ℚ)) (t : String) (h : pyStrip t ≠ "") :
    (analyse_sentiment vader textblob t).overall
        = (analyse_sentiment vader textblob t).compound * 0.6
          + (analyse_sentiment vader textblob t).polarity * 0.4
    ∧ (analyse_sentiment vader textblob t).compound = (vader (pyStrip t)).compound
    ∧ (analyse_sentiment vader textblob t).polarity
        = (match textblob (pyStrip t) with
           | some ps => ps.1
           | none => 0) := by
  simp only [analyse_sentiment]
  rw [if_neg h]
  cases htb : textblob (pyStrip t) with
  | none => simp [htb]
  | some ps => simp [htb]

/-- Witness for C1 at the concrete text `"good"` and concrete models. -/
theorem fusion_rule_witness :
    pyStrip "good" ≠ ""
    ∧ ((analyse_sentiment vader0 textblob0 "good").overall
        = (analyse_sentiment vader0 textblob0 "good").compound * 0.6
          + (analyse_sentiment vader0 textblob0 "good").polarity * 0.4
    ∧ (analyse_sentiment vader0 textblob0 "good").compound
        = (vader0 (pyStrip "good")).compound
    ∧ (analyse_sentiment vader0 textblob0 "good").polarity
        = (match textblob0 (pyStrip "good") with
           | some ps => ps.1
           | none => 0)) :=
  ⟨by decide, fusion_rule vader0 textblob0 "good" (by decide)⟩

/-- Claim C2: `_get_sentiment_label` is a total function into the five labels
partitioning the line exactly as the specification states, and agrees with the
four boundary examples `0.3`, `0.0999`, `-0.1`, `-0.3`. -/
theorem label_partition :
    (∀ s : ℚ,
      (_get_sentiment_label s = Label.veryPositive ↔ 0.3 ≤ s)
      ∧ (_get_sentiment_label s = Label.positive ↔ 0.1 ≤ s ∧ s < 0.3)
      ∧ (_get_sentiment_label s = Label.neutral ↔ -0.1 < s ∧ s < 0.1)
      ∧ (_get_sentiment_label s = Label.negative ↔ -0.3 < s ∧ s ≤ -0.1)
      ∧ (_get_sentiment_label s = Label.veryNegative ↔ s ≤ -0.3))
    ∧ _get_sentiment_label 0.3 = Label.veryPositive
    ∧ _get_sentiment_label 0.0999 = Label.neutral
    ∧ _get_sentiment_label (-0.1) = Label.negative
    ∧ _get_sentiment_label (-0.3) = Label.veryNegative := by
  refine ⟨fun s => ?_, by unfold _get_sentiment_label; norm_num,
    by unfold _get_sentiment_label; norm_num,
    by unfold _get_sentiment_label; norm_num,
    by unfold _get_sentiment_label; norm_num⟩
  unfold _get_sentiment_label
  split_ifs with h1 h2 h3 h4 <;>
    refine ⟨?_, ?_, ?_, ?_, ?_⟩ <;>
      simp only [iff_true, true_iff, iff_false, false_iff, not_and, not_lt, not_le] <;>
        first
          | linarith
          | (intro hx; linarith)
          | (rintro ⟨hx, hy⟩; linarith)
          | (constructor <;> linarith)

/-- Claim C3: the aggregation in `analyse_entity` yields the arithmetic mean
of the overall scores, one scored item per article, and a label computed from
the average; the empty evidence list yields average `0`, label `Neutral` and
count `0` (total function, no division fault). -/
theorem aggregate_mean (vader : String → VaderScores)
    (textblob : String → Option (ℚ × ℚ)) (entity entity_type : String)
    (news : List Article) :
    ((analyse_entity_core vader textblob entity entity_type news).avg_sentiment
        = mean ((analyse_entity_core vader textblob entity entity_type news).sentiments.map
            (fun s => s.score.overall))
    ∧ (analyse_entity_core vader textblob entity entity_type news).sentiments.length
        = news.length
    ∧ (analyse_entity_core vader textblob entity entity_type news).sentiment_label
        = _get_sentiment_label
            (analyse_entity_core vader textblob entity entity_type news).avg_sentiment)
    ∧ ((analyse_entity_core vader textblob entity entity_type []).avg_sentiment = 0
    ∧ (analyse_entity_core vader textblob entity entity_type []).sentiment_label
        = Label.neutral
    ∧ (analyse_entity_core vader textblob entity entity_type []).sentiments.length = 0) := by
  refine ⟨⟨?_, ?_, ?_⟩, ?_, ?_, ?_⟩
  · cases news with
    | nil => simp [analyse_entity_core, mean]
    | cons a l => simp [analyse_entity_core, mean]
  · simp [analyse_entity_core]
  · simp [analyse_entity_core]
  · simp [analyse_entity_core]
  · simp only [analyse_entity_core, List.map_nil, List.isEmpty_nil, if_pos]
    unfold _get_sentiment_label
    norm_num
  · simp [analyse_entity_core]

/-- Claim C4: text that strips to the empty string yields exactly the fixed
neutral score, on all fields, whatever the two models do. -/
theorem empty_text_neutral (vader : String → VaderScores)
    (textblob : String → Option (ℚ × ℚ)) (t : String) (h : pyStrip t = "") :
    analyse_sentiment vader textblob t = _neutral_sentiment := by
  simp [analyse_sentiment, h]

/-- Witness for C4 at the concrete texts `""` and `"   "`. -/
theorem empty_text_neutral_witness :
    pyStrip "" = "" ∧ pyStrip "   " = ""
    ∧ analyse_sentiment vader0 textblob0 "" = _neutral_sentiment
    ∧ analyse_sentiment vader0 textblob0 "   " = _neutral_sentiment :=
  ⟨by decide, by decide,
   empty_text_neutral vader0 textblob0 "" (by decide),
   empty_text_neutral vader0 textblob0 "   " (by decide)⟩

/-- Counterexample to claim C5: the code's matcher checks the title and the
summary separately, not the single concatenated surface the claim describes.
The alias `"record profit"` occurs in the concatenated lower-cased surface of
the item (`"apple posts record profit up"`) yet the matcher returns `false`. -/
theorem matcher_not_concatenated_surface :
    match_spec ["record profit"]
      { title := "Apple posts record", summary := "profit up" } = true
    ∧ matches_entity ["record profit"]
      { title := "Apple posts record", summary := "profit up" } = false :=
  ⟨by decide, by decide⟩

/-- Amended claim C5: the matcher returns `true` iff some alias occurs as a
substring of the lower-cased title or as a substring of the lower-cased
summary (checked separately); the Apple/Banana examples behave as the claim
states. -/
theorem matcher_separate_fields (variants : List String) (e : Entry) :
    (matches_entity variants e = true ↔
      ∃ v ∈ variants,
        (∃ s t, s ++ v.data ++ t = (lowerStr e.title).data)
        ∨ (∃ s t, s ++ v.data ++ t = (lowerStr e.summary).data))
    ∧ matches_entity ["aapl", "apple"]
        { title := "Apple posts record profit", summary := "" } = true
    ∧ matches_entity ["aapl", "apple"]
        { title := "Banana harvest report", summary := "" } = false := by
  refine ⟨?_, by decide, by decide⟩
  simp only [matches_entity, List.any_eq_true, Bool.or_eq_true, containsSub_iff]

/-- Claim C6: the orchestration loops return exactly one summary per tracked
entity, in registry order, as a total function (no exception escapes the
fetch/score/aggregate flow); a source whose fetch fails contributes zero
articles while the remaining sources' articles still count. -/
theorem orchestrator_isolation (vader : String → VaderScores)
    (textblob : String → Option (ℚ × ℚ))
    (financial_feeds saas_feeds : List (String × Option (List Entry)))
    (stocks saas : List String) :
    ((analyse_all vader textblob financial_feeds saas_feeds stocks saas).1.map
        (fun r => r.entity) = stocks
    ∧ (analyse_all vader textblob financial_feeds saas_feeds stocks saas).2.map
        (fun r => r.entity) = saas)
    ∧ (∀ (pre post : List (String × Option (List Entry))) (name entity : String),
        fetch_news (pre ++ (name, none) :: post) saas_feeds entity "stock"
          = fetch_news (pre ++ post) saas_feeds entity "stock")
    ∧ (∀ (pre post : List (String × Option (List Entry))) (name entity : String),
        fetch_news financial_feeds (pre ++ (name, none) :: post) entity "saas"
          = fetch_news financial_feeds (pre ++ post) entity "saas") := by
  refine ⟨⟨?_, ?_⟩, ?_, ?_⟩
  · simp only [analyse_all, List.map_map]
    induction stocks with
    | nil => rfl
    | cons a l ih => exact congrArg (List.cons a) ih
  · simp only [analyse_all, List.map_map]
    induction saas with
    | nil => rfl
    | cons a l ih => exact congrArg (List.cons a) ih
  · intro pre post name entity
    simp [fetch_news, List.map_append, source_items]
  · intro pre post name entity
    simp [fetch_news, List.map_append, source_items]

/-- Claim C7: when TextBlob fails on non-empty stripped text, the failure is
not propagated: VADER's outputs are kept, `polarity` and `subjectivity` are
substituted by `0`, and `overall = compound * 0.6`. -/
theorem model2_failure_degrades (vader : String → VaderScores)
    (textblob : String → Option (ℚ × ℚ)) (t : String)
    (h1 : pyStrip t ≠ "") (h2 : textblob (pyStrip t) = none) :
    analyse_sentiment vader textblob t =
      { compound := (vader (pyStrip t)).compound
        positive := (vader (pyStrip t)).pos
        negative := (vader (pyStrip t)).neg
        neutral := (vader (pyStrip t)).neu
        polarity := 0
        subjectivity := 0
        overall := (vader (pyStrip t)).compound * 0.6 } := by
  simp only [analyse_sentiment]
  rw [if_neg h1]
  simp [h2]

/-- Witness for C7 at the concrete text `"bad"` with an always-failing
TextBlob model. -/
theorem model2_failure_degrades_witness :
    pyStrip "bad" ≠ "" ∧ textblob0 (pyStrip "bad") = none
    ∧ analyse_sentiment vader0 textblob0 "bad" =
      { compound := (vader0 (pyStrip "bad")).compound
        positive := (vader0 (pyStrip "bad")).pos
        negative := (vader0 (pyStrip "bad")).neg
        neutral := (vader0 (pyStrip "bad")).neu
        polarity := 0
        subjectivity := 0
        overall := (vader0 (pyStrip "bad")).compound * 0.6 } :=
  ⟨by decide, rfl, model2_failure_degrades vader0 textblob0 "bad" (by decide) rfl⟩

/-- Claim C8: assuming VADER's compound lies in `[-1, 1]` and TextBlob's
polarity lies in `[-1, 1]` whenever it succeeds, the fused `overall` score
lies in `[-1, 1]` for every text (empty text included). -/
theorem overall_bounded (vader : String → VaderScores)
    (textblob : String → Option (ℚ × ℚ)) (t : String)
    (hc1 : -1 ≤ (vader (pyStrip t)).compound)
    (hc2 : (vader (pyStrip t)).compound ≤ 1)
    (hp : ∀ ps, textblob (pyStrip t) = some ps → -1 ≤ ps.1 ∧ ps.1 ≤ 1) :
    -1 ≤ (analyse_sentiment vader textblob t).overall
    ∧ (analyse_sentiment vader textblob t).overall ≤ 1 := by
  by_cases h : pyStrip t = ""
  · simp [analyse_sentiment, h, _neutral_sentiment]
  · cases htb : textblob (pyStrip t) with
    | none =>
      simp only [analyse_sentiment]
      rw [if_neg h]
      simp only [htb]
      constructor <;> linarith
    | some ps =>
      obtain ⟨hp1, hp2⟩ := hp ps htb
      simp only [analyse_sentiment]
      rw [if_neg h]
      simp only [htb]
      constructor <;> linarith

/-- Witness for C8 at the concrete text `"x"` and concrete bounded models. -/
theorem overall_bounded_witness :
    (-1 ≤ (vader0 (pyStrip "x")).compound ∧ (vader0 (pyStrip "x")).compound ≤ 1)
    ∧ (-1 ≤ (analyse_sentiment vader0 textblob0 "x").overall
        ∧ (analyse_sentiment vader0 textblob0 "x").overall ≤ 1) :=
  ⟨⟨by decide, by decide⟩,
   overall_bounded vader0 textblob0 "x" (by decide) (by decide)
     (fun ps hps => by simp [textblob0] at hps)⟩

/-- Claim C9: `create_dashboard` reports a failure to its caller exactly when
the tracked registry is empty (the unguarded `max` over all results raises
before anything is returned or saved); for every non-empty registry no such
failure occurs. -/
theorem registry_required (vader : String → VaderScores)
    (textblob : String → Option (ℚ × ℚ))
    (financial_feeds saas_feeds : List (String × Option (List Entry)))
    (stocks saas : List String) :
    ((∃ msg, create_dashboard vader textblob financial_feeds saas_feeds stocks saas
        = Except.error msg)
      ↔ (stocks = [] ∧ saas = [])) := by
  unfold create_dashboard analyse_all
  cases stocks <;> cases saas <;> simp

/-- Claim C10 (implicit): surrounding whitespace never changes any field of
the returned score — `analyse_sentiment` on `t` equals `analyse_sentiment` on
the stripped form of `t`. -/
theorem strip_invariance (vader : String → VaderScores)
    (textblob : String → Option (ℚ × ℚ)) (t : String) :
    analyse_sentiment vader textblob t
      = analyse_sentiment vader textblob (pyStrip t) := by
  simp only [analyse_sentiment, pyStrip_idem]

end SentimentAnalyser
